import Mathlib

/-!
Verification of the spring-physics and velocity-tracking animation engine of
the perfect-dnd repository. Numbers are modelled as exact rationals; the
velocity estimator, whose specification speaks about NaN and infinities, is
modelled over rationals extended with the IEEE special values. Each section
embeds one source component and proves the properties claimed about it.
-/

set_option maxRecDepth 4000

/-! ## Spring simulator (createLiveSpring, src/unnamed/part_012 lines 124-234) -/

structure SpringConfig where
  stiffness : ℚ
  damping : ℚ
  mass : ℚ
  restSpeed : ℚ
  restDistance : ℚ
deriving DecidableEq

structure Spring where
  config : SpringConfig
  currentValue : ℚ
  currentVelocity : ℚ
  targetValue : ℚ
  lastTime : Option ℚ
deriving DecidableEq

structure StepResult where
  value : ℚ
  velocity : ℚ
  done : Bool
deriving DecidableEq

def createLiveSpring (config : SpringConfig) : Spring :=
  { config := config, currentValue := 0, currentVelocity := 0, targetValue := 0,
    lastTime := none }

def Spring.setTarget (s : Spring) (target : ℚ) : Spring :=
  { s with targetValue := target }

def Spring.setCurrent (s : Spring) (value : ℚ) : Spring :=
  { s with currentValue := value, currentVelocity := 0, lastTime := none }

/-- Math.abs, written so that it evaluates by kernel reduction. -/
def jsAbs (q : ℚ) : ℚ := if q < 0 then -q else q

theorem jsAbs_eq_abs (q : ℚ) : jsAbs q = |q| := by
  unfold jsAbs
  rcases lt_or_le q 0 with h | h
  · rw [if_pos h, abs_of_neg h]
  · rw [if_neg (not_lt.mpr h), abs_of_nonneg h]

/-- One Euler integration update of the spring over a timestep given in
milliseconds, returning the new velocity and the new value, exactly as in the
body of the step function of createLiveSpring. -/
def Spring.integrate (s : Spring) (deltaTime : ℚ) : ℚ × ℚ :=
  let displacement := s.currentValue - s.targetValue
  let springForce := -s.config.stiffness * displacement
  let dampingForce := -s.config.damping * s.currentVelocity
  let acceleration := (springForce + dampingForce) / s.config.mass
  let dt := deltaTime / 1000
  let v1 := s.currentVelocity + acceleration * dt
  (v1, s.currentValue + v1 * dt)

/-- The step function of createLiveSpring: a cold start (null lastTime) only
records the time; a warm step integrates over min(now - lastTime, 64)
milliseconds and snaps exactly to the target when the post-update state is
within the rest thresholds. -/
def Spring.step (s : Spring) (now : ℚ) : StepResult × Spring :=
  match s.lastTime with
  | none =>
    ({ value := s.currentValue, velocity := s.currentVelocity, done := false },
     { s with lastTime := some now })
  | some last =>
    if jsAbs (s.integrate (min (now - last) 64)).1 < s.config.restSpeed ∧
       jsAbs ((s.integrate (min (now - last) 64)).2 - s.targetValue) < s.config.restDistance then
      ({ value := s.targetValue, velocity := 0, done := true },
       { s with currentValue := s.targetValue, currentVelocity := 0, lastTime := some now })
    else
      ({ value := (s.integrate (min (now - last) 64)).2,
         velocity := (s.integrate (min (now - last) 64)).1, done := false },
       { s with currentValue := (s.integrate (min (now - last) 64)).2,
                currentVelocity := (s.integrate (min (now - last) 64)).1,
                lastTime := some now })

/-- A partial configuration as accepted by setConfig: a missing field (a
non-number in the source) leaves the corresponding parameter unchanged. -/
structure SpringConfigPatch where
  stiffness : Option ℚ
  damping : Option ℚ
  mass : Option ℚ
  restSpeed : Option ℚ
  restDistance : Option ℚ

def Spring.setConfig (s : Spring) (p : SpringConfigPatch) : Spring :=
  { s with config :=
    { stiffness := p.stiffness.getD s.config.stiffness,
      damping := p.damping.getD s.config.damping,
      mass := p.mass.getD s.config.mass,
      restSpeed := p.restSpeed.getD s.config.restSpeed,
      restDistance := p.restDistance.getD s.config.restDistance } }

/-- Default rotation spring parameters of the repository
(SPRING_DEFAULTS with restSpeed 2 and restDistance 0.5). -/
def defaultRotationConfig : SpringConfig :=
  { stiffness := 100, damping := 10, mass := 1, restSpeed := 2, restDistance := 1/2 }

/-! ### Helper lemmas about warm steps -/

theorem step_warm_rest (s : Spring) (now t : ℚ) (h : s.lastTime = some t)
    (h1 : jsAbs (s.integrate (min (now - t) 64)).1 < s.config.restSpeed)
    (h2 : jsAbs ((s.integrate (min (now - t) 64)).2 - s.targetValue) < s.config.restDistance) :
    s.step now =
      ({ value := s.targetValue, velocity := 0, done := true },
       { s with currentValue := s.targetValue, currentVelocity := 0, lastTime := some now }) := by
  unfold Spring.step
  rw [h]
  exact if_pos ⟨h1, h2⟩

theorem step_warm_norest (s : Spring) (now t : ℚ) (h : s.lastTime = some t)
    (hr : ¬(jsAbs (s.integrate (min (now - t) 64)).1 < s.config.restSpeed ∧
            jsAbs ((s.integrate (min (now - t) 64)).2 - s.targetValue) < s.config.restDistance)) :
    s.step now =
      ({ value := (s.integrate (min (now - t) 64)).2,
         velocity := (s.integrate (min (now - t) 64)).1, done := false },
       { s with currentValue := (s.integrate (min (now - t) 64)).2,
                currentVelocity := (s.integrate (min (now - t) 64)).1,
                lastTime := some now }) := by
  unfold Spring.step
  rw [h]
  exact if_neg hr

/-! ## Claims about the spring simulator alone -/

/-- Claim C6: for every spring state whose last step occurred at time t,
step at time t + 10000 returns the same value, velocity and done flag as
step at time t + 64 from the same state, because the integration timestep
is capped at 64 milliseconds. -/
theorem c6_timestep_clamp (s : Spring) (t : ℚ) (h : s.lastTime = some t) :
    (s.step (t + 10000)).1 = (s.step (t + 64)).1 := by
  unfold Spring.step
  rw [h]
  have e1 : t + 10000 - t = (10000 : ℚ) := by ring
  have e2 : t + 64 - t = (64 : ℚ) := by ring
  have m1 : min (10000 : ℚ) 64 = 64 := min_eq_right (by norm_num)
  dsimp only
  rw [e1, e2, m1, min_self]
  split_ifs <;> rfl

theorem c6_timestep_clamp_witness :
    ((Spring.mk defaultRotationConfig 3 4 0 (some 5)).step (5 + 10000)).1 =
      ((Spring.mk defaultRotationConfig 3 4 0 (some 5)).step (5 + 64)).1 :=
  c6_timestep_clamp (Spring.mk defaultRotationConfig 3 4 0 (some 5)) 5 rfl

/-- Claim C7: the first call to step after construction returns value 0 with
done false, and the first call to step after setCurrent v returns value v with
done false, regardless of the timestamp passed. -/
theorem c7_cold_start (cfg : SpringConfig) (s : Spring) (v now : ℚ) :
    ((createLiveSpring cfg).step now).1.value = 0 ∧
    ((createLiveSpring cfg).step now).1.done = false ∧
    ((s.setCurrent v).step now).1.value = v ∧
    ((s.setCurrent v).step now).1.done = false :=
  ⟨rfl, rfl, rfl, rfl⟩

/-- Claim C8: setConfig replaces exactly the five spring parameters that are
present in the patch and leaves the kinematic state (current value, velocity,
target, last step time) untouched. -/
theorem c8_setConfig_preserves (s : Spring) (p : SpringConfigPatch) :
    (s.setConfig p).currentValue = s.currentValue ∧
    (s.setConfig p).currentVelocity = s.currentVelocity ∧
    (s.setConfig p).targetValue = s.targetValue ∧
    (s.setConfig p).lastTime = s.lastTime ∧
    (s.setConfig p).config.stiffness = p.stiffness.getD s.config.stiffness ∧
    (s.setConfig p).config.damping = p.damping.getD s.config.damping ∧
    (s.setConfig p).config.mass = p.mass.getD s.config.mass ∧
    (s.setConfig p).config.restSpeed = p.restSpeed.getD s.config.restSpeed ∧
    (s.setConfig p).config.restDistance = p.restDistance.getD s.config.restDistance :=
  ⟨rfl, rfl, rfl, rfl, rfl, rfl, rfl, rfl, rfl⟩

/-! ## Claim C2: exact rest snapping -/

/-- A warm spring state inside the rest thresholds for which the next step
does not snap: the integration update pushes the value back outside the rest
distance before the rest check is made. -/
def c2state : Spring :=
  { config := defaultRotationConfig, currentValue := 49/100, currentVelocity := 19/10,
    targetValue := 0, lastTime := some 0 }

/-- Claim C2 counterexample: c2state satisfies the claimed precondition
(distance to target below restDistance, speed below restSpeed), yet the next
step at time 16 returns done false and a value different from the target,
because the rest check is applied to the post-integration state. -/
theorem c2_counterexample :
    jsAbs (c2state.currentValue - c2state.targetValue) < c2state.config.restDistance ∧
    jsAbs c2state.currentVelocity < c2state.config.restSpeed ∧
    (c2state.step 16).1.done = false ∧
    (c2state.step 16).1.value ≠ c2state.targetValue := by
  with_unfolding_all decide

/-- Claim C2 as amended: for every warm spring state, when the values produced
by the integration update of the next step (over the clamped timestep) are
within the rest thresholds, that step returns value exactly equal to the
target, velocity exactly 0 and done true, not merely values within
tolerance. -/
theorem c2_rest_snap_amended (s : Spring) (now t : ℚ) (h : s.lastTime = some t)
    (h1 : jsAbs (s.integrate (min (now - t) 64)).1 < s.config.restSpeed)
    (h2 : jsAbs ((s.integrate (min (now - t) 64)).2 - s.targetValue) < s.config.restDistance) :
    (s.step now).1.value = s.targetValue ∧
    (s.step now).1.velocity = 0 ∧
    (s.step now).1.done = true := by
  rw [step_warm_rest s now t h h1 h2]
  exact ⟨rfl, rfl, rfl⟩

/-- A warm state whose next integration update lands inside the rest
thresholds, used to witness c2_rest_snap_amended. -/
def c2snapState : Spring :=
  { config := defaultRotationConfig, currentValue := 2/5, currentVelocity := 0,
    targetValue := 0, lastTime := some 0 }

theorem c2_rest_snap_amended_witness :
    (c2snapState.step 16).1.value = c2snapState.targetValue ∧
    (c2snapState.step 16).1.velocity = 0 ∧
    (c2snapState.step 16).1.done = true :=
  c2_rest_snap_amended c2snapState 16 0 rfl
    (by with_unfolding_all decide) (by with_unfolding_all decide)

/-! ## Claim C3: eventual convergence -/

/-- A spring configuration with positive stiffness and damping for which the
fixed-step Euler integrator diverges: with 16 millisecond frames the damping
term exactly cancels the previous velocity, and the value is multiplied by
-255 on every step. -/

def c3cfg : SpringConfig :=
  { stiffness := 1000000, damping := 125/2, mass := 1, restSpeed := 2, restDistance := 1/2 }

/-- State of the divergent spring after the cold step at time 0 and n warm
steps at times 16, 32, ... -/
def c3state : ℕ → Spring
  | 0 => (((createLiveSpring c3cfg).setCurrent 1).step 0).2
  | n + 1 => ((c3state n).step (16 * ((n : ℚ) + 1))).2

/-- Result returned by the n-th step call of the divergent run. -/
def c3res : ℕ → StepResult
  | 0 => (((createLiveSpring c3cfg).setCurrent 1).step 0).1
  | n + 1 => ((c3state n).step (16 * ((n : ℚ) + 1))).1

/-- The divergent run never reports done: this is the negation of what claim
C3 asserts for every positive stiffness and damping. -/
def c3neverDone : Prop := ∀ n, (c3res n).done = false

theorem c3_integrate (x v : ℚ) (lt : Option ℚ) :
    (Spring.mk c3cfg x v 0 lt).integrate 16 = (-16000 * x, -255 * x) := by
  simp only [Spring.integrate, c3cfg, Prod.mk.injEq]
  constructor <;> ring

theorem c3_no_rest (n : ℕ) (v : ℚ) (lt : Option ℚ) :
    ¬(jsAbs ((Spring.mk c3cfg ((-255) ^ n) v 0 lt).integrate 16).1 <
        (Spring.mk c3cfg ((-255) ^ n) v 0 lt).config.restSpeed ∧
      jsAbs (((Spring.mk c3cfg ((-255) ^ n) v 0 lt).integrate 16).2 -
        (Spring.mk c3cfg ((-255) ^ n) v 0 lt).targetValue) <
        (Spring.mk c3cfg ((-255) ^ n) v 0 lt).config.restDistance) := by
  rintro ⟨-, h2⟩
  rw [c3_integrate] at h2
  have habs : jsAbs (-255 * (-255 : ℚ) ^ n - 0) = 255 ^ (n + 1) := by
    rw [jsAbs_eq_abs, sub_zero, show (-255 : ℚ) * (-255) ^ n = (-255) ^ (n + 1) by
      rw [pow_succ]; ring, abs_pow]
    norm_num
  rw [habs] at h2
  have hge : (1 : ℚ) ≤ 255 ^ (n + 1) := one_le_pow₀ (by norm_num)
  have : (c3cfg.restDistance : ℚ) = 1/2 := rfl
  rw [this] at h2
  linarith

theorem c3step (n : ℕ) (v : ℚ) :
    (Spring.mk c3cfg ((-255) ^ n) v 0 (some (16 * (n : ℚ)))).step (16 * ((n : ℚ) + 1)) =
      ({ value := (-255) ^ (n + 1), velocity := -16000 * (-255) ^ n, done := false },
       Spring.mk c3cfg ((-255) ^ (n + 1)) (-16000 * (-255) ^ n) 0
         (some (16 * ((n : ℚ) + 1)))) := by
  have hmin : min (16 * ((n : ℚ) + 1) - 16 * (n : ℚ)) 64 = 16 := by
    rw [show 16 * ((n : ℚ) + 1) - 16 * (n : ℚ) = 16 by ring]
    exact min_eq_left (by norm_num)
  have := step_warm_norest (Spring.mk c3cfg ((-255) ^ n) v 0 (some (16 * (n : ℚ))))
    (16 * ((n : ℚ) + 1)) (16 * (n : ℚ)) rfl (by rw [hmin]; exact c3_no_rest n v _)
  rw [this, hmin, c3_integrate]
  have hp : (-255 : ℚ) ^ (n + 1) = -255 * (-255) ^ n := by rw [pow_succ]; ring
  rw [hp]

theorem c3state_spec (n : ℕ) :
    ∃ v : ℚ, c3state n = Spring.mk c3cfg ((-255) ^ n) v 0 (some (16 * (n : ℚ))) := by
  induction n with
  | zero =>
    refine ⟨0, ?_⟩
    norm_num
    rfl
  | succ n ih =>
    obtain ⟨v, hv⟩ := ih
    refine ⟨-16000 * (-255) ^ n, ?_⟩
    show ((c3state n).step (16 * ((n : ℚ) + 1))).2 = _
    rw [hv, c3step]
    push_cast
    ring_nf

/-- Claim C3 counterexample: the spring with stiffness 1000000, damping 62.5,
mass 1 (all positive and finite), target 0 and start value 1, stepped on
regular 16 millisecond frames, never reports done: the value grows by a
factor of 255 in absolute value on every step, so the rest thresholds are
never met. -/
theorem c3_counterexample_divergent : c3neverDone := by
  intro n
  cases n with
  | zero => rfl
  | succ n =>
    obtain ⟨v, hv⟩ := c3state_spec n
    show ((c3state n).step (16 * ((n : ℚ) + 1))).1.done = false
    rw [hv, c3step]

/-- The same run for the default rotation spring configuration: cold step at
time 0, then warm steps on regular 16 millisecond frames. -/
def c3dState : ℕ → Spring
  | 0 => (((createLiveSpring defaultRotationConfig).setCurrent 1).step 0).2
  | n + 1 => ((c3dState n).step (16 * ((n : ℚ) + 1))).2

/-- Result of the n-th step call of the default-configuration run. -/
def c3dRes : ℕ → StepResult
  | 0 => (((createLiveSpring defaultRotationConfig).setCurrent 1).step 0).1
  | n + 1 => ((c3dState n).step (16 * ((n : ℚ) + 1))).1

/-- Claim C3 as amended: eventual convergence holds for the default rotation
spring configuration (stiffness 100, damping 10, mass 1) from start value 1
and target 0 on regular 16 millisecond frames - the 17th step reports done
with the value snapped exactly to the target - but it does not hold for every
positive stiffness and damping, as c3_counterexample_divergent shows. -/
theorem c3_amended_convergence :
    ∃ n, (c3dRes n).done = true ∧ (c3dRes n).value = (c3dState n).targetValue :=
  ⟨17, by with_unfolding_all decide⟩

/-! ## Velocity estimator -/

/-- A JavaScript number as far as the velocity estimator needs it: an exact
finite value, one of the two infinities, or NaN. Finite arithmetic is exact
(overflow of huge finite doubles is not modelled); the special values follow
the IEEE rules used by JavaScript. -/
inductive JSNum where
  | fin (q : ℚ)
  | posInf
  | negInf
  | nan
deriving DecidableEq

def JSNum.isFin : JSNum → Bool
  | .fin _ => true
  | _ => false

/-- JavaScript subtraction restricted to this model. -/
def jsub : JSNum → JSNum → JSNum
  | .nan, _ => .nan
  | _, .nan => .nan
  | .fin a, .fin b => .fin (a - b)
  | .fin _, .posInf => .negInf
  | .fin _, .negInf => .posInf
  | .posInf, .fin _ => .posInf
  | .posInf, .posInf => .nan
  | .posInf, .negInf => .posInf
  | .negInf, .fin _ => .negInf
  | .negInf, .posInf => .negInf
  | .negInf, .negInf => .nan

/-- JavaScript division restricted to this model; division of a nonzero
finite value by zero yields a signed infinity and 0/0 yields NaN. -/
def jdiv : JSNum → JSNum → JSNum
  | .nan, _ => .nan
  | _, .nan => .nan
  | .fin a, .fin b =>
    if b = 0 then (if a = 0 then .nan else if 0 < a then .posInf else .negInf)
    else .fin (a / b)
  | .fin _, .posInf => .fin 0
  | .fin _, .negInf => .fin 0
  | .posInf, .fin b => if 0 ≤ b then .posInf else .negInf
  | .negInf, .fin b => if 0 ≤ b then .negInf else .posInf
  | .posInf, .posInf => .nan
  | .posInf, .negInf => .nan
  | .negInf, .posInf => .nan
  | .negInf, .negInf => .nan

/-- JavaScript strict greater-than: any comparison involving NaN is false. -/
def jgt : JSNum → JSNum → Bool
  | .nan, _ => false
  | _, .nan => false
  | .fin a, .fin b => decide (b < a)
  | .fin _, .posInf => false
  | .fin _, .negInf => true
  | .posInf, .fin _ => true
  | .posInf, .posInf => false
  | .posInf, .negInf => true
  | .negInf, _ => false

/-- JavaScript strict equality on numbers: NaN is equal to nothing. -/
def jeqNum : JSNum → JSNum → Bool
  | .nan, _ => false
  | _, .nan => false
  | .fin a, .fin b => decide (a = b)
  | .posInf, .posInf => true
  | .negInf, .negInf => true
  | _, _ => false

/-- PointWithTimestamp from the source. -/
structure Sample where
  x : JSNum
  y : JSNum
  timestamp : JSNum
deriving DecidableEq

/-- The backward scan of calculateVelocityFromHistory over the reversed
history (newest sample first): it returns the first sample whose age relative
to the newest strictly exceeds the window, and otherwise the chronologically
oldest sample, on which the source loop ends with oldestSample still set. -/
def scanBack (latest : Sample) (windowMs : JSNum) : List Sample → Option Sample
  | [] => none
  | [s] => some s
  | s :: s2 :: rest =>
    if jgt (jsub latest.timestamp s.timestamp) windowMs then some s
    else scanBack latest windowMs (s2 :: rest)

/-- The baseline sample selected by calculateVelocityFromHistory. -/
def selectBaseline (history : List Sample) (windowMs : JSNum) : Option Sample :=
  match history.reverse with
  | [] => none
  | latest :: rest => scanBack latest windowMs (latest :: rest)

/-- The arithmetic tail of calculateVelocityFromHistory: time delta in
seconds, the zero-elapsed guard, the per-axis division, and the clamp that
maps a component equal to positive infinity to 0. -/
def velocityCore (latest oldestSample : Sample) : JSNum × JSNum :=
  let timeDelta := jdiv (jsub latest.timestamp oldestSample.timestamp) (.fin 1000)
  if jeqNum timeDelta (.fin 0) = true then (.fin 0, .fin 0)
  else
    let vx := jdiv (jsub latest.x oldestSample.x) timeDelta
    let vy := jdiv (jsub latest.y oldestSample.y) timeDelta
    ((if jeqNum vx .posInf = true then .fin 0 else vx),
     (if jeqNum vy .posInf = true then .fin 0 else vy))

/-- calculateVelocityFromHistory from src/unnamed/part_012 lines 247-294. -/
def calculateVelocityFromHistory (history : List Sample) (windowMs : JSNum) : JSNum × JSNum :=
  if history.length < 2 then (.fin 0, .fin 0)
  else
    match history.reverse with
    | [] => (.fin 0, .fin 0)
    | latest :: rest =>
      match scanBack latest windowMs (latest :: rest) with
      | none => (.fin 0, .fin 0)
      | some oldestSample => velocityCore latest oldestSample

/-- The position history of claim C1: x positions 0, 5, 12, 20 at times
0, 40, 90, 150. -/
def c1hist : List Sample :=
  [⟨.fin 0, .fin 0, .fin 0⟩, ⟨.fin 5, .fin 0, .fin 40⟩,
   ⟨.fin 12, .fin 0, .fin 90⟩, ⟨.fin 20, .fin 0, .fin 150⟩]

/-- Claim C1 counterexample: on the C1 history with a 100ms window the
function returns an x velocity of 1500/11 (about 136.36 px/s), not
(20-0)/((150-0)/1000) = 400/3 (about 133.33 px/s), and the selected baseline
is not the sample at t=0: the backward scan stops at the first sample whose
age exceeds the window, which is the one at t=40. -/
theorem c1_counterexample :
    calculateVelocityFromHistory c1hist (.fin 100) = (.fin (1500/11), .fin 0) ∧
    JSNum.fin (1500/11) ≠ JSNum.fin (400/3) ∧
    selectBaseline c1hist (.fin 100) ≠ some ⟨.fin 0, .fin 0, .fin 0⟩ := by
  with_unfolding_all decide

/-- Claim C1 as amended: for the history [(0,0,0),(5,0,40),(12,0,90),
(20,0,150)] and a 100ms window, the backward scan selects the sample at t=40
as baseline (its age 150-40=110 exceeds the window first), and the returned
x velocity is (20-5)/((150-40)/1000) = 1500/11, about 136.36 px/s. -/
theorem c1_amended_velocity :
    selectBaseline c1hist (.fin 100) = some ⟨.fin 5, .fin 0, .fin 40⟩ ∧
    calculateVelocityFromHistory c1hist (.fin 100) = (.fin (1500/11), .fin 0) := by
  with_unfolding_all decide

/-- A history whose oldest sample carries an infinite x coordinate. -/
def c5hist : List Sample :=
  [⟨.posInf, .fin 0, .fin 0⟩, ⟨.fin 0, .fin 0, .fin 200⟩]

/-- Claim C5 counterexample: on a history containing a sample with x equal
to positive infinity, the returned x component is negative infinity - the
source clamps only a component strictly equal to positive infinity, so an
infinite value escapes and the components are not never NaN or infinite for
every input history. -/
theorem c5_counterexample_nonfinite :
    (calculateVelocityFromHistory c5hist (.fin 100)).1 = JSNum.negInf ∧
    JSNum.isFin JSNum.negInf = false := by
  with_unfolding_all decide

theorem isFin_exists (x : JSNum) (h : x.isFin = true) : ∃ q, x = JSNum.fin q := by
  cases x <;> simp [JSNum.isFin] at h ⊢

theorem scanBack_mem (latest : Sample) (w : JSNum) :
    ∀ l : List Sample, l ≠ [] → ∃ b, scanBack latest w l = some b ∧ b ∈ l := by
  intro l
  induction l with
  | nil => intro h; exact absurd rfl h
  | cons s rest ih =>
    intro _
    cases rest with
    | nil => exact ⟨s, rfl, List.mem_singleton_self s⟩
    | cons s2 rest2 =>
      by_cases hc : jgt (jsub latest.timestamp s.timestamp) w = true
      · exact ⟨s, by simp [scanBack, hc], List.mem_cons_self s _⟩
      · obtain ⟨b, hb, hmem⟩ := ih (by simp)
        exact ⟨b, by simp [scanBack, hc, hb], List.mem_cons_of_mem s hmem⟩

theorem velocityCore_isFin (latest b : Sample)
    (h3 : latest.timestamp.isFin = true) (h6 : b.timestamp.isFin = true)
    (h1 : latest.x.isFin = true) (h4 : b.x.isFin = true)
    (h2 : latest.y.isFin = true) (h5 : b.y.isFin = true) :
    (velocityCore latest b).1.isFin = true ∧ (velocityCore latest b).2.isFin = true := by
  obtain ⟨lt, hlt⟩ := isFin_exists _ h3
  obtain ⟨bt, hbt⟩ := isFin_exists _ h6
  obtain ⟨lx, hlx⟩ := isFin_exists _ h1
  obtain ⟨bx, hbx⟩ := isFin_exists _ h4
  obtain ⟨ly, hly⟩ := isFin_exists _ h2
  obtain ⟨by_, hby⟩ := isFin_exists _ h5
  unfold velocityCore
  rw [hlt, hbt, hlx, hbx, hly, hby]
  simp only [jsub]
  have h1000 : jdiv (JSNum.fin (lt - bt)) (JSNum.fin 1000) = JSNum.fin ((lt - bt) / 1000) := by
    simp [jdiv]
  rw [h1000]
  by_cases hz : (lt - bt) / 1000 = 0
  · simp [jeqNum, hz, JSNum.isFin]
  · have hne : jeqNum (JSNum.fin ((lt - bt) / 1000)) (JSNum.fin 0) = false := by
      simp [jeqNum, hz]
    rw [hne]
    simp only [Bool.false_eq_true, if_false]
    have hdx : jdiv (JSNum.fin (lx - bx)) (JSNum.fin ((lt - bt) / 1000)) =
        JSNum.fin ((lx - bx) / ((lt - bt) / 1000)) := by
      simp [jdiv, hz]
    have hdy : jdiv (JSNum.fin (ly - by_)) (JSNum.fin ((lt - bt) / 1000)) =
        JSNum.fin ((ly - by_) / ((lt - bt) / 1000)) := by
      simp [jdiv, hz]
    rw [hdx, hdy]
    simp [jeqNum, JSNum.isFin]

theorem velocityCore_zero_elapsed (latest b : Sample)
    (h : jsub latest.timestamp b.timestamp = JSNum.fin 0) :
    velocityCore latest b = (JSNum.fin 0, JSNum.fin 0) := by
  unfold velocityCore
  rw [h]
  norm_num [jdiv, jeqNum]

/-- Claim C5 as amended: for every history all of whose samples have finite
coordinates and timestamps, and every window, both returned components are
finite; with fewer than 2 samples the function returns (0, 0); and with zero
elapsed time between the latest sample and the selected baseline it returns
(0, 0). (For histories containing non-finite samples the guarantee fails, as
c5_counterexample_nonfinite shows, because only positive infinity is
clamped.) -/
theorem c5_amended_guards (history : List Sample) (w : JSNum)
    (hfin : ∀ s ∈ history, s.x.isFin = true ∧ s.y.isFin = true ∧ s.timestamp.isFin = true) :
    (calculateVelocityFromHistory history w).1.isFin = true ∧
    (calculateVelocityFromHistory history w).2.isFin = true ∧
    (history.length < 2 → calculateVelocityFromHistory history w = (.fin 0, .fin 0)) ∧
    (∀ latest rest b, history.reverse = latest :: rest →
      selectBaseline history w = some b →
      jsub latest.timestamp b.timestamp = JSNum.fin 0 →
      calculateVelocityFromHistory history w = (.fin 0, .fin 0)) := by
  by_cases hlen : history.length < 2
  · have hz : calculateVelocityFromHistory history w = (.fin 0, .fin 0) := by
      unfold calculateVelocityFromHistory
      rw [if_pos hlen]
    rw [hz]
    exact ⟨rfl, rfl, fun _ => rfl, fun _ _ _ _ _ _ => rfl⟩
  · cases hrev : history.reverse with
    | nil =>
      exfalso
      have : history = [] := List.reverse_eq_nil_iff.mp hrev
      rw [this] at hlen
      exact hlen (by norm_num)
    | cons latest rest =>
      obtain ⟨b, hscan, hbmem⟩ := scanBack_mem latest w (latest :: rest) (by simp)
      have hcalc : calculateVelocityFromHistory history w = velocityCore latest b := by
        unfold calculateVelocityFromHistory
        rw [if_neg hlen, hrev]
        dsimp only
        rw [hscan]
      have hsel : selectBaseline history w = some b := by
        unfold selectBaseline
        rw [hrev]
        exact hscan
      have hlmem : latest ∈ history := by
        have : latest ∈ history.reverse := by rw [hrev]; exact List.mem_cons_self _ _
        exact List.mem_reverse.mp this
      have hbmem2 : b ∈ history := by
        have : b ∈ history.reverse := by rw [hrev]; exact hbmem
        exact List.mem_reverse.mp this
      obtain ⟨hlx, hly, hlt⟩ := hfin latest hlmem
      obtain ⟨hbx, hby, hbt⟩ := hfin b hbmem2
      obtain ⟨f1, f2⟩ := velocityCore_isFin latest b hlt hbt hlx hbx hly hby
      refine ⟨by rw [hcalc]; exact f1, by rw [hcalc]; exact f2,
        fun h => absurd h hlen, ?_⟩
      intro latest2 rest2 b2 hrev2 hsel2 hzero
      have hl2 : latest2 = latest := by
        injection hrev2 with h1 h2
        exact h1.symm
      have hb2 : b2 = b := by
        have h12 := hsel.symm.trans hsel2
        injection h12 with h1
        exact h1.symm
      rw [hcalc]
      apply velocityCore_zero_elapsed
      rw [← hl2, ← hb2]
      exact hzero

theorem c5_amended_guards_witness :
    (calculateVelocityFromHistory c1hist (.fin 100)).1.isFin = true ∧
    (calculateVelocityFromHistory c1hist (.fin 100)).2.isFin = true :=
  ⟨(c5_amended_guards c1hist (.fin 100) (by with_unfolding_all decide)).1,
   (c5_amended_guards c1hist (.fin 100) (by with_unfolding_all decide)).2.1⟩

/-! ## Settle controller -/

/-- State of the settle animation loop of SettlingOverlay
(src/components/dnd-kit/card-inner.tsx): the four springs (x, y, rotation,
scale), the watchdog bookkeeping, the didComplete idempotency guard, and
observables recording how often and at which frame and elapsed time the
completion callback fired. The active flag records whether a next frame is
scheduled. -/
structure SettleLoop where
  xs : Spring
  ys : Spring
  rs : Spring
  ss : Spring
  settleStartTime : Option ℚ
  frameCount : ℕ
  didComplete : Bool
  completions : ℕ
  completedAtFrame : Option ℕ
  completedAtElapsed : Option ℚ
  active : Bool
deriving DecidableEq

/-- The finish helper of the settle loop: invokes the completion callback
unless it already ran (the didComplete guard). -/
def settleFinish (s : SettleLoop) (elapsed : ℚ) : SettleLoop :=
  if s.didComplete then { s with active := false }
  else
    { s with
      didComplete := true
      completions := s.completions + 1
      completedAtFrame := some s.frameCount
      completedAtElapsed := some elapsed
      active := false }

/-- One animate frame of SettlingOverlay: record the start time on the first
frame, increment the frame counter, finish if the counter exceeds 120 or the
elapsed time exceeds 2000ms, otherwise step all four springs and finish when
all are done, else keep the loop scheduled. -/
def settleAnimate (now : ℚ) (s : SettleLoop) : SettleLoop :=
  let start := s.settleStartTime.getD now
  let s1 := { s with settleStartTime := some start, frameCount := s.frameCount + 1 }
  if 120 < s1.frameCount ∨ 2000 < now - start then settleFinish s1 (now - start)
  else
    let px := s1.xs.step now
    let py := s1.ys.step now
    let pr := s1.rs.step now
    let ps := s1.ss.step now
    let s2 := { s1 with xs := px.2, ys := py.2, rs := pr.2, ss := ps.2 }
    if px.1.done = true ∧ py.1.done = true ∧ pr.1.done = true ∧ ps.1.done = true then
      settleFinish s2 (now - start)
    else s2

/-- Run the settle loop over a schedule of frame timestamps; frames after
the loop has unscheduled itself do nothing. -/
def settleRun : SettleLoop → List ℚ → SettleLoop
  | s, [] => s
  | s, t :: ts => if s.active = true then settleRun (settleAnimate t s) ts else s

/-- Number of completion callback invocations of a settle session: when the
target slot is missing the source completes immediately exactly once without
running the loop; otherwise the loop runs over the frame schedule. -/
def settleSession (targetFound : Bool) (s : SettleLoop) (ts : List ℚ) : ℕ :=
  if targetFound then (settleRun s ts).completions else 1

/-- The never-converging spring configuration of claim C4: zero stiffness
and zero damping. -/
def c4cfg : SpringConfig :=
  { stiffness := 0, damping := 0, mass := 1, restSpeed := 1, restDistance := 1/2 }

/-- A never-converging spring 100 units away from its target. -/
def c4spring : Spring := ((createLiveSpring c4cfg).setCurrent 100).setTarget 0

/-- A fresh settle session over four never-converging springs. -/
def c4initLoop : SettleLoop :=
  { xs := c4spring, ys := c4spring, rs := c4spring, ss := c4spring,
    settleStartTime := none, frameCount := 0, didComplete := false, completions := 0,
    completedAtFrame := none, completedAtElapsed := none, active := true }

/-- 121 frames spaced 16.75 milliseconds apart, a realistic slightly-slow
60Hz schedule. -/
def c4times : List ℚ := (List.range 121).map (fun k => (67 / 4 : ℚ) * k)

/-- Claim C4 counterexample: with never-converging springs and frames every
16.75ms, the completion callback fires exactly once but on the 121st frame at
2010ms of simulated time - the watchdog increments the frame counter before
comparing it strictly against 120, and no earlier frame exceeds the strict
2000ms bound - so the callback is invoked neither within 120 frames nor
within 2000ms. -/
theorem c4_counterexample_watchdog :
    (settleRun c4initLoop c4times).completions = 1 ∧
    (settleRun c4initLoop c4times).completedAtFrame = some 121 ∧
    (settleRun c4initLoop c4times).completedAtElapsed = some 2010 ∧
    ¬(121 ≤ 120) ∧ ¬((2010 : ℚ) ≤ 2000) := by
  with_unfolding_all decide

/-- Frames delivered after the loop unscheduled itself change nothing. -/
theorem settleRun_inactive (s : SettleLoop) (ts : List ℚ) (h : s.active = false) :
    settleRun s ts = s := by
  cases ts with
  | nil => rfl
  | cons t ts =>
    unfold settleRun
    rw [h]
    simp

/-- One frame of a running, not-yet-completed settle loop either finishes it
(callback fired exactly once, at the incremented frame count) or keeps it
running with the counter incremented and still at most 120. -/
theorem settleAnimate_cases (now : ℚ) (s : SettleLoop)
    (ha : s.active = true) (hd : s.didComplete = false) (hc : s.completions = 0)
    (hf : s.frameCount ≤ 120) :
    ((settleAnimate now s).active = false ∧ (settleAnimate now s).completions = 1 ∧
      (settleAnimate now s).completedAtFrame = some (s.frameCount + 1)) ∨
    ((settleAnimate now s).active = true ∧ (settleAnimate now s).didComplete = false ∧
      (settleAnimate now s).completions = 0 ∧
      (settleAnimate now s).frameCount = s.frameCount + 1 ∧
      (settleAnimate now s).frameCount ≤ 120 ∧
      (settleAnimate now s).completedAtFrame = s.completedAtFrame) := by
  unfold settleAnimate
  dsimp only
  split_ifs with h1 h2
  · left
    simp [settleFinish, hd, hc]
  · left
    simp [settleFinish, hd, hc]
  · right
    push_neg at h1
    have h11 := h1.1
    refine ⟨ha, hd, hc, rfl, ?_, rfl⟩
    show s.frameCount + 1 ≤ 120
    omega

/-- Any running settle session given enough frames terminates with exactly
one completion, at a frame index of at most 121. -/
theorem settleRun_completes : ∀ (ts : List ℚ) (s : SettleLoop),
    s.active = true → s.didComplete = false → s.completions = 0 →
    s.completedAtFrame = none →
    s.frameCount ≤ 120 → 121 ≤ ts.length + s.frameCount →
    (settleRun s ts).completions = 1 ∧
    (∀ k, (settleRun s ts).completedAtFrame = some k → k ≤ 121) := by
  intro ts
  induction ts with
  | nil =>
    intro s ha hd hc hn hf hlen
    exfalso
    simp at hlen
    omega
  | cons t ts ih =>
    intro s ha hd hc hn hf hlen
    have hrun : settleRun s (t :: ts) = settleRun (settleAnimate t s) ts := by
      have e : settleRun s (t :: ts) =
          if s.active = true then settleRun (settleAnimate t s) ts else s := rfl
      rw [e, ha]
      simp
    rw [hrun]
    rcases settleAnimate_cases t s ha hd hc hf with hfin | hcont
    · rw [settleRun_inactive _ _ hfin.1]
      refine ⟨hfin.2.1, ?_⟩
      intro k hk
      rw [hfin.2.2] at hk
      injection hk with hk
      omega
    · refine ih (settleAnimate t s) hcont.1 hcont.2.1 hcont.2.2.1 ?_ ?_ ?_
      · rw [hcont.2.2.2.2.2]
        exact hn
      · exact hcont.2.2.2.2.1
      · rw [hcont.2.2.2.1]
        simp at hlen ⊢
        omega

/-- Claim C4 as amended: for every settle session - any four spring states,
including never-converging stiffness 0 damping 0 springs - and every frame
schedule of at least 121 frames, the completion callback is invoked exactly
once regardless of the exit path (natural rest, watchdog, or missing target),
and when the loop runs, the invocation happens by the 121st frame: the
watchdog fires on the frame whose count exceeds 120, which under a frame
period above 16.67ms can be frame 121 at more than 2000ms of simulated
time. -/
theorem c4_amended_completion (found : Bool) (s : SettleLoop) (ts : List ℚ)
    (ha : s.active = true) (hd : s.didComplete = false) (hc : s.completions = 0)
    (hn : s.completedAtFrame = none) (hf : s.frameCount = 0)
    (hlen : 121 ≤ ts.length) :
    settleSession found s ts = 1 ∧
    (∀ k, (settleRun s ts).completedAtFrame = some k → k ≤ 121) := by
  have hmain := settleRun_completes ts s ha hd hc hn (by omega) (by omega)
  constructor
  · unfold settleSession
    cases found with
    | false => simp
    | true => simpa using hmain.1
  · exact hmain.2

theorem c4_amended_completion_witness :
    settleSession true c4initLoop c4times = 1 :=
  (c4_amended_completion true c4initLoop c4times rfl rfl rfl rfl rfl
    (by with_unfolding_all decide)).1

/-! ## Drag-swing controller loop -/

/-- State of the drag-swing controller (useDragSwing, src/unnamed/part_006
and src/hooks/use-drag-swing.tsx): the loop-active marker
(springAnimationFrameRef, true when a frame is scheduled), the rotation and
scale springs, the dragging and settling flags, the settle watchdog
bookkeeping, and the last written rotation and scale refs. -/
structure SwingState where
  marker : Bool
  rotSpring : Spring
  scaleSpring : Spring
  isDragging : Bool
  isSettling : Bool
  settleStartTime : Option ℚ
  settleFrameCount : ℕ
  currentRotation : ℚ
  currentScale : ℚ
deriving DecidableEq

/-- startSpringAnimation: returns immediately when the loop-active marker is
set; otherwise re-bases both springs on the current refs and schedules the
loop. -/
def startSpringAnimation (s : SwingState) : SwingState :=
  if s.marker = true then s
  else
    { s with
      rotSpring := s.rotSpring.setCurrent s.currentRotation
      scaleSpring := s.scaleSpring.setCurrent s.currentScale
      marker := true }

/-- The stepping tail of the animate frame: step both springs, write the
refs, and either keep the loop scheduled (still dragging, or settling with a
spring still moving) or clear the settling state and the marker. -/
def swingStepPart (now : ℚ) (s : SwingState) : SwingState :=
  let pr := s.rotSpring.step now
  let ps := s.scaleSpring.step now
  let s2 := { s with
    rotSpring := pr.2
    scaleSpring := ps.2
    currentRotation := pr.1.value
    currentScale := ps.1.value }
  if s2.isDragging = true ∨
      (s2.isSettling = true ∧ ¬(pr.1.done = true ∧ ps.1.done = true)) then s2
  else
    { s2 with
      isSettling := false
      settleStartTime := none
      settleFrameCount := 0
      marker := false }

/-- One animate frame of the drag-swing loop: when settling, update the
watchdog counters and force an exit (springs reset to rest, marker cleared)
once 120 frames or 2000ms are exceeded; otherwise step the springs. -/
def swingAnimate (now : ℚ) (s : SwingState) : SwingState :=
  if s.isSettling = true then
    let start := s.settleStartTime.getD now
    let fc := (if s.settleStartTime = none then 0 else s.settleFrameCount) + 1
    if 120 < fc ∨ 2000 < now - start then
      { s with
        isSettling := false
        settleStartTime := none
        settleFrameCount := 0
        rotSpring := (s.rotSpring.setCurrent 0).setTarget 0
        scaleSpring := (s.scaleSpring.setCurrent 1).setTarget 1
        marker := false }
    else swingStepPart now { s with settleStartTime := some start, settleFrameCount := fc }
  else swingStepPart now s

/-- The condition under which an animate invocation exits the loop instead
of rescheduling itself: the settle watchdog fires, or neither dragging nor
(settling with some spring still moving) holds. -/
def swingLoopExits (now : ℚ) (s : SwingState) : Prop :=
  (s.isSettling = true ∧
    (120 < (if s.settleStartTime = none then 0 else s.settleFrameCount) + 1 ∨
     2000 < now - s.settleStartTime.getD now)) ∨
  (¬(s.isSettling = true ∧
      (120 < (if s.settleStartTime = none then 0 else s.settleFrameCount) + 1 ∨
       2000 < now - s.settleStartTime.getD now)) ∧
   ¬(s.isDragging = true ∨
      (s.isSettling = true ∧
        ¬((s.rotSpring.step now).1.done = true ∧ (s.scaleSpring.step now).1.done = true))))

/-- Claim C9: when the loop-active marker is set, startSpringAnimation is a
no-op - the whole controller state is unchanged, so no second loop is
scheduled and the springs are not re-based - the marker stays set, and an
animate frame clears the marker exactly when the loop exits. -/
theorem c9_loop_idempotent (s : SwingState) (now : ℚ) (h : s.marker = true) :
    startSpringAnimation s = s ∧
    (startSpringAnimation s).marker = true ∧
    ((swingAnimate now s).marker = false ↔ swingLoopExits now s) := by
  have h1 : startSpringAnimation s = s := by
    unfold startSpringAnimation
    rw [if_pos h]
  refine ⟨h1, by rw [h1]; exact h, ?_⟩
  unfold swingAnimate swingLoopExits
  by_cases hset : s.isSettling = true
  · rw [if_pos hset]
    dsimp only
    by_cases hw : 120 < (if s.settleStartTime = none then 0 else s.settleFrameCount) + 1 ∨
        2000 < now - s.settleStartTime.getD now
    · rw [if_pos hw]
      simp [hset, hw]
    · rw [if_neg hw]
      unfold swingStepPart
      dsimp only
      cases hd : s.isDragging <;>
        cases hrd : (s.rotSpring.step now).1.done <;>
          cases hsd : (s.scaleSpring.step now).1.done <;>
            simp [h, hset, hw, hd, hrd, hsd]
  · rw [if_neg hset]
    unfold swingStepPart
    dsimp only
    cases hd : s.isDragging <;>
      cases hrd : (s.rotSpring.step now).1.done <;>
        cases hsd : (s.scaleSpring.step now).1.done <;>
          simp [h, hset, hd, hrd, hsd]

/-- A controller state with an active loop, mid-drag. -/
def c9state : SwingState :=
  { marker := true, rotSpring := createLiveSpring defaultRotationConfig,
    scaleSpring := createLiveSpring defaultRotationConfig, isDragging := true,
    isSettling := false, settleStartTime := none, settleFrameCount := 0,
    currentRotation := 0, currentScale := 1 }

theorem c9_loop_idempotent_witness :
    startSpringAnimation c9state = c9state ∧
    (startSpringAnimation c9state).marker = true ∧
    ((swingAnimate 0 c9state).marker = false ↔ swingLoopExits 0 c9state) :=
  c9_loop_idempotent c9state 0 rfl

/-! ## Store drag and settle state -/

/-- DropPosition values above and below; the null case is modelled by
Option. -/
inductive DropPos where
  | above
  | below
deriving DecidableEq

/-- The rect captured at drop time. -/
structure RectQ where
  top : ℚ
  left : ℚ
  width : ℚ
  height : ℚ
deriving DecidableEq

/-- The drag and drop-animation slice of the mobx Store
(src/lib/stores/store.tsx). -/
structure StoreState where
  activeBlockId : Option String
  settlingBlockId : Option String
  overBlockId : Option String
  dropPosition : Option DropPos
  dropAnimationRect : Option RectQ
  dropAnimationRotation : ℚ
  dropAnimationScale : ℚ

/-- clearDropTarget from the store. -/
def StoreState.clearDropTarget (s : StoreState) : StoreState :=
  { s with overBlockId := none, dropPosition := none }

/-- startSettling from the store: move the active block into the settling
slot, capture the drop-animation snapshot, and clear the drop target. -/
def StoreState.startSettling (s : StoreState) (rect : RectQ) (rotation scale : ℚ) :
    StoreState :=
  ({ s with
    settlingBlockId := s.activeBlockId
    dropAnimationRect := some rect
    dropAnimationRotation := rotation
    dropAnimationScale := scale
    activeBlockId := none }).clearDropTarget

/-- endDrag from the store: clear both drag ids and reset the snapshot. -/
def StoreState.endDrag (s : StoreState) : StoreState :=
  { s with
    activeBlockId := none
    settlingBlockId := none
    dropAnimationRect := none
    dropAnimationRotation := 0
    dropAnimationScale := 1 }

/-- Claim C10: startSettling sets settlingBlockId to the previous
activeBlockId, copies rect, rotation and scale into the drop-animation
snapshot, nulls activeBlockId and clears the drop target; endDrag nulls both
ids and resets the snapshot to rect null, rotation 0, scale 1. -/
theorem c10_store_transitions (s : StoreState) (rect : RectQ) (rotation scale : ℚ) :
    (s.startSettling rect rotation scale).settlingBlockId = s.activeBlockId ∧
    (s.startSettling rect rotation scale).dropAnimationRect = some rect ∧
    (s.startSettling rect rotation scale).dropAnimationRotation = rotation ∧
    (s.startSettling rect rotation scale).dropAnimationScale = scale ∧
    (s.startSettling rect rotation scale).activeBlockId = none ∧
    (s.startSettling rect rotation scale).overBlockId = none ∧
    (s.startSettling rect rotation scale).dropPosition = none ∧
    s.endDrag.activeBlockId = none ∧
    s.endDrag.settlingBlockId = none ∧
    s.endDrag.dropAnimationRect = none ∧
    s.endDrag.dropAnimationRotation = 0 ∧
    s.endDrag.dropAnimationScale = 1 :=
  ⟨rfl, rfl, rfl, rfl, rfl, rfl, rfl, rfl, rfl, rfl, rfl, rfl⟩
